import Mathlib

/-!
Verification of the broadcast delivery orchestration engine of the
whatsapp-massager repository, shallowly embedded in Lean 4.

Embedding conventions:
* ISO-8601 timestamp strings are represented by natural numbers (their epoch
  milliseconds); `new Date(iso).getTime()` is the identity under this view and
  JavaScript `null` timestamps become `Option.none`.
* `nanoid()` calls are represented by an injected id supply `genId : Nat → String`
  (the k-th `nanoid()` call of a submission is `genId k`).
* JavaScript strings are Lean `String`s; `String.replace(/{{\s*tok\s*}}/gi, v)`
  is modelled by a left-to-right scanner over the character list that matches
  the literal pattern case-insensitively with whitespace tolerance, applies
  ECMAScript dollar-substitution (`GetSubstitution`) to the replacement
  string, and never rescans replacement text, exactly like a global regex
  replace.
-/

/-- Delivery task lifecycle states (`DeliveryLogEntry.status` in `lib/types`). -/
inductive DeliveryStatus
  | pending
  | sending
  | delivered
  | failed
deriving DecidableEq

/-- Broadcast summary states (`Broadcast.status` in `lib/types`). -/
inductive BroadcastStatus
  | scheduled
  | in_progress
  | completed
  | failed
deriving DecidableEq

/-- A contact record (fields used by the engine). -/
structure Contact where
  id : String
  name : String
  phone : String
  tags : List String
  notes : Option String
  optIn : Bool
deriving DecidableEq

/-- The broadcast `target` field: `{ tag: audienceTag }` (where `audienceTag`
may be `null`) or `{ contactIds: [...] }`. -/
inductive BroadcastTarget
  | byTag (t : Option String)
  | byContactIds (ids : List String)
deriving DecidableEq

/-- A broadcast record. -/
structure Broadcast where
  id : String
  label : String
  templateId : String
  target : BroadcastTarget
  scheduledFor : Option Nat
  createdAt : Nat
  status : BroadcastStatus
  totalRecipients : Nat
  delivered : Nat
  failed : Nat
deriving DecidableEq

/-- A per-recipient delivery task (`DeliveryLogEntry` in `lib/types`). -/
structure DeliveryLogEntry where
  id : String
  broadcastId : String
  contactId : String
  contactName : String
  phone : String
  scheduledFor : Option Nat
  status : DeliveryStatus
  preview : String
  startedAt : Option Nat
  completedAt : Option Nat
  error : Option String
deriving DecidableEq

/-! ### Personalization engine (`personaliseMessage`, BroadcastComposer.tsx:25-36) -/

/-- Case-insensitive match of the token characters `t` against the front of
`s`; on success returns the remaining characters. -/
def matchChars : List Char → List Char → Option (List Char)
  | [], s => some s
  | _ :: _, [] => none
  | t :: ts, c :: cs => if c.toLower = t.toLower then matchChars ts cs else none

/-- Match the regex `{{\s*tok\s*}}` (flags `gi`) at the front of `s`; on
success returns the matched segment together with the characters after it. -/
def matchToken (tok : List Char) (s : List Char) : Option (List Char × List Char) :=
  match s with
  | '{' :: '{' :: rest =>
    match matchChars tok (rest.dropWhile Char.isWhitespace) with
    | some r1 =>
      match r1.dropWhile Char.isWhitespace with
      | '}' :: '}' :: r2 => some (s.take (s.length - r2.length), r2)
      | _ => none
    | none => none
  | _ => none

/-- ECMAScript `GetSubstitution` for a replacement string against a regex
with no capture groups: `$$` is a literal dollar, `$&` the matched segment,
a dollar followed by a backquote the part of the original string before the
match, a dollar followed by a quote the part after it; any other
dollar-prefixed text (such as `$1`, as the six token patterns have no
capture groups) stays literal. -/
def expandRepl : List Char → List Char → List Char → List Char → List Char
  | [], _, _, _ => []
  | [c], _, _, _ => [c]
  | c :: d :: r, m, b, a =>
    if c = '$' then
      if d = '$' then '$' :: expandRepl r m b a
      else if d = '&' then m ++ expandRepl r m b a
      else if d = Char.ofNat 96 then b ++ expandRepl r m b a
      else if d = Char.ofNat 39 then a ++ expandRepl r m b a
      else '$' :: d :: expandRepl r m b a
    else c :: expandRepl (d :: r) m b a

/-- One step bound on the scanner: with `fuel ≥ length + 1` the scan finishes.
`replaceTokAux` walks the string left to right, replacing every occurrence of
`{{\s*tok\s*}}` by the `GetSubstitution`-expanded `repl` and never rescanning
replacement text (the semantics of `String.replace` with a `g`-flagged
regex); `pre` accumulates the original characters before the current
position, feeding the before/after portions of the expansion. -/
def replaceTokAux (tok repl : List Char) : Nat → List Char → List Char → List Char
  | 0, _, s => s
  | _ + 1, _, [] => []
  | fuel + 1, pre, c :: cs =>
    match matchToken tok (c :: cs) with
    | some (matched, rest) =>
      expandRepl repl matched pre rest ++
        replaceTokAux tok repl fuel (pre ++ matched) rest
    | none => c :: replaceTokAux tok repl fuel (pre ++ [c]) cs

/-- `s.replace(/{{\s*tok\s*}}/gi, repl)` on character lists. -/
def replaceTok (tok repl s : List Char) : List Char :=
  replaceTokAux tok repl (s.length + 1) [] s

/-- String-level wrapper for one `.replace(/{{\s*tok\s*}}/gi, repl)` call. -/
def replaceTokStr (tok repl s : String) : String :=
  String.mk (replaceTok tok.toList repl.toList s.toList)

/-- JavaScript `String.prototype.trim`: drop leading and trailing whitespace. -/
def jsTrim (s : String) : String :=
  String.mk (((s.toList.dropWhile Char.isWhitespace).reverse.dropWhile
    Char.isWhitespace).reverse)

/-- JavaScript `String.prototype.toLowerCase` (ASCII case mapping). -/
def jsToLower (s : String) : String :=
  String.mk (s.toList.map Char.toLower)

/-- JavaScript `split(" ")` on character lists: splitting on every single
space character, so `"" → [""]` and `"a  b" → ["a", "", "b"]`. -/
def splitSpace : List Char → List (List Char)
  | [] => [[]]
  | c :: cs =>
    if c = ' ' then [] :: splitSpace cs
    else
      match splitSpace cs with
      | [] => [[c]]
      | g :: gs => (c :: g) :: gs

/-- The `{{firstName}}` replacement value:
`contact.name.trim().split(" ")[0] ?? contact.name` (destructuring the split,
whose array is never empty, so the fallback is dead). -/
def firstNameValue (contact : Contact) : String :=
  ((splitSpace (jsTrim contact.name).toList).map String.mk).headD contact.name

/-- `true` iff the lowercase form of `s` contains `pat` as a substring,
scanning like JavaScript `String.includes`. -/
def listStartsWith : List Char → List Char → Bool
  | [], _ => true
  | _ :: _, [] => false
  | p :: ps, c :: cs => p = c && listStartsWith ps cs

/-- Substring containment on character lists (JavaScript `includes`). -/
def listIncludes (pat : List Char) : List Char → Bool
  | [] => pat.isEmpty
  | c :: cs => listStartsWith pat (c :: cs) || listIncludes pat cs

/-- The `{{company}}` replacement value:
`contact.tags.find(t => t.toLowerCase().includes("company")) ?? contact.tags[0] ?? "your team"`. -/
def companyValue (contact : Contact) : String :=
  match contact.tags.find? (fun t => listIncludes "company".toList (jsToLower t).toList) with
  | some t => t
  | none => contact.tags.headD "your team"

/-- `personaliseMessage` (BroadcastComposer.tsx:25-36): six chained global,
case-insensitive, whitespace-tolerant token replacements, in source order. -/
def personaliseMessage (template : String) (contact : Contact) : String :=
  replaceTokStr "phone" contact.phone
    (replaceTokStr "tag" (contact.tags.headD "")
      (replaceTokStr "notes" (contact.notes.getD "")
        (replaceTokStr "company" (companyValue contact)
          (replaceTokStr "fullName" contact.name
            (replaceTokStr "firstName" (firstNameValue contact) template)))))

/-- Decidable check that `s` still contains a `{{\s*tok\s*}}` occurrence. -/
def containsTok (tok : List Char) : List Char → Bool
  | [] => false
  | c :: cs => (matchToken tok (c :: cs)).isSome || containsTok tok cs

/-- `true` iff `s` contains an occurrence of any of the six recognized
placeholder tokens. -/
def hasRecognizedToken (s : String) : Bool :=
  ["firstName", "fullName", "company", "notes", "tag", "phone"].any
    (fun t => containsTok t.toList s.toList)

/-! ### Audience resolver (BroadcastComposer.tsx:74-86) -/

/-- The composer's audience mode toggle (`"all" | "tag"`). -/
inductive AudienceMode
  | all
  | tag
deriving DecidableEq

/-- `optedInContacts`: `contacts.filter((contact) => contact.optIn)`. -/
def optedInContacts (contacts : List Contact) : List Contact :=
  contacts.filter (fun c => c.optIn)

/-- `filteredContacts`: if the mode is `"tag"` and `audienceTag` is truthy
(non-null and non-empty), keep the opted-in contacts having a tag whose
lowercase form equals the lowercase target tag; otherwise all opted-in
contacts. -/
def filteredContacts (mode : AudienceMode) (audienceTag : Option String)
    (contacts : List Contact) : List Contact :=
  match mode, audienceTag with
  | AudienceMode.tag, some t =>
    if t = "" then optedInContacts contacts
    else (optedInContacts contacts).filter
      (fun c => c.tags.any (fun tg => jsToLower tg = jsToLower t))
  | _, _ => optedInContacts contacts

/-! ### Broadcast orchestrator (`handleSubmit`, BroadcastComposer.tsx:108-145,
and `handleLaunchBroadcast`, page.tsx:129-138) -/

/-- The composer state feeding `handleSubmit`: the form fields, the
compliance checkbox and the contact collection.  `selectedTemplateId` is the
id of the resolved `selectedTemplate` (if any). -/
structure ComposerState where
  broadcastLabel : String
  message : String
  acknowledgedCompliance : Bool
  audienceMode : AudienceMode
  audienceTag : Option String
  scheduledFor : Option Nat
  selectedTemplateId : Option String
  contacts : List Contact
deriving DecidableEq

/-- The deliveries built on launch:
`filteredContacts.map((contact, index) => ({...status: "pending"...}))`, with
`nanoid()` supplied by `genId` (index `i + 1`; index 0 is the broadcast id). -/
def mkDeliveries (genId : Nat → String) (broadcastId message : String)
    (scheduledFor : Option Nat) : Nat → List Contact → List DeliveryLogEntry
  | _, [] => []
  | i, c :: cs =>
    { id := genId (i + 1)
      broadcastId := broadcastId
      contactId := c.id
      contactName := c.name
      phone := c.phone
      scheduledFor := scheduledFor
      status := DeliveryStatus.pending
      preview := personaliseMessage message c
      startedAt := none
      completedAt := none
      error := none } :: mkDeliveries genId broadcastId message scheduledFor (i + 1) cs

/-- `handleSubmit` (BroadcastComposer.tsx:108-145): the launch path.  Returns
`none` when an early-return guard fires, otherwise the constructed `Broadcast`
together with its `DeliveryLogEntry` list, exactly as passed to
`onLaunchBroadcast`. -/
def handleSubmit (genId : Nat → String) (isoNow : Nat) (st : ComposerState) :
    Option (Broadcast × List DeliveryLogEntry) :=
  if jsTrim st.broadcastLabel = "" then none
  else if jsTrim st.message = "" then none
  else if st.acknowledgedCompliance = false then none
  else
    let audience := filteredContacts st.audienceMode st.audienceTag st.contacts
    if audience.isEmpty then none
    else
      let b : Broadcast :=
        { id := genId 0
          label := jsTrim st.broadcastLabel
          templateId := st.selectedTemplateId.getD "custom"
          target :=
            match st.audienceMode with
            | AudienceMode.tag => BroadcastTarget.byTag st.audienceTag
            | AudienceMode.all => BroadcastTarget.byContactIds (audience.map (fun c => c.id))
          scheduledFor := st.scheduledFor
          createdAt := isoNow
          status :=
            match st.scheduledFor with
            | some _ => BroadcastStatus.scheduled
            | none => BroadcastStatus.in_progress
          totalRecipients := audience.length
          delivered := 0
          failed := 0 }
      some (b, mkDeliveries genId b.id st.message st.scheduledFor 0 audience)

/-- The page-level collections that a launch mutates. -/
structure AppState where
  broadcasts : List Broadcast
  deliveries : List DeliveryLogEntry
deriving DecidableEq

/-- `handleLaunchBroadcast` (page.tsx:129-138): prepend the broadcast, append
its deliveries. -/
def handleLaunchBroadcast (b : Broadcast) (ds : List DeliveryLogEntry)
    (app : AppState) : AppState :=
  { broadcasts := b :: app.broadcasts, deliveries := app.deliveries ++ ds }

/-- The whole submit path: a failed guard leaves the app state (and the
compliance checkbox) untouched; a successful launch applies
`handleLaunchBroadcast` and resets the checkbox
(`setAcknowledgedCompliance(false)`).  The second component is the value of
`acknowledgedCompliance` after the submission. -/
def submitForm (genId : Nat → String) (isoNow : Nat) (st : ComposerState)
    (app : AppState) : AppState × Bool :=
  match handleSubmit genId isoNow st with
  | none => (app, st.acknowledgedCompliance)
  | some (b, ds) => (handleLaunchBroadcast b ds app, false)

/-! ### Status aggregator (page.tsx:140-180) -/

/-- The `delivered` count of the effect (page.tsx:149-151):
`relatedEntries.filter((entry) => entry.status === "delivered").length`. -/
def deliveredCount (tasks : List DeliveryLogEntry) : Nat :=
  (tasks.filter (fun e => e.status = DeliveryStatus.delivered)).length

/-- The `failed` count of the effect (page.tsx:152-154). -/
def failedCount (tasks : List DeliveryLogEntry) : Nat :=
  (tasks.filter (fun e => e.status = DeliveryStatus.failed)).length

/-- The `inFlight` flag of the effect (page.tsx:155-157):
`relatedEntries.some((entry) => entry.status === "pending" || entry.status === "sending")`. -/
def anyInFlight (tasks : List DeliveryLogEntry) : Bool :=
  tasks.any (fun e =>
    decide (e.status = DeliveryStatus.pending) || decide (e.status = DeliveryStatus.sending))

/-- The recomputed status (page.tsx:158-167), on the broadcast's related
entries. -/
def reconStatus (b : Broadcast) (tasks : List DeliveryLogEntry) : BroadcastStatus :=
  if failedCount tasks = tasks.length ∧ deliveredCount tasks = 0 then
    BroadcastStatus.failed
  else if anyInFlight tasks then BroadcastStatus.in_progress
  else if tasks.length ≤ deliveredCount tasks + failedCount tasks then
    BroadcastStatus.completed
  else if b.scheduledFor.isSome then BroadcastStatus.scheduled
  else b.status

/-- One pass of the reconciliation `useEffect` for a single broadcast: the
body of `prev.map((broadcast) => ...)` at page.tsx:142-178; the final guard
(page.tsx:169-175) returns the broadcast unchanged when neither the status
nor the counts changed. -/
def reconcileBroadcast (deliveries : List DeliveryLogEntry) (b : Broadcast) :
    Broadcast :=
  let relatedEntries := deliveries.filter (fun e => e.broadcastId = b.id)
  if relatedEntries.isEmpty then b
  else if reconStatus b relatedEntries = b.status ∧
      deliveredCount relatedEntries = b.delivered ∧
      failedCount relatedEntries = b.failed then b
  else
    { b with
      delivered := deliveredCount relatedEntries
      failed := failedCount relatedEntries
      status := reconStatus b relatedEntries }

/-- The full aggregation effect: `setBroadcasts((prev) => prev.map(...))`. -/
def aggregateBroadcasts (deliveries : List DeliveryLogEntry)
    (broadcasts : List Broadcast) : List Broadcast :=
  broadcasts.map (reconcileBroadcast deliveries)

/-! ### Dispatch loop (page.tsx:182-227)

The dispatch `useEffect` has dependency array `[deliveries, setDeliveries,
processingRef]`; only `deliveries` can change identity, and every
`setDeliveries` inside the effect produces a fresh array, so the effect body
re-runs after each such update, *after* React has run the previous run's
cleanup.  The cleanup (page.tsx:223-226) cancels the completion timeout and
resets `processingRef` to `false`. -/

/-- The runtime state of the dispatch loop: the delivery collection, the
`processingRef` flag, and the at-most-one scheduled completion timeout
(task id paired with the drawn `Math.random() < 0.08` failure outcome). -/
structure EngineState where
  deliveries : List DeliveryLogEntry
  processing : Bool
  timer : Option (String × Bool)
deriving DecidableEq

/-- Task eligibility (page.tsx:185-190): `status === "pending"` and
(no `scheduledFor`, or scheduled time ≤ now + 500). -/
def eligibleEntry (now : Nat) (e : DeliveryLogEntry) : Bool :=
  decide (e.status = DeliveryStatus.pending) &&
    (match e.scheduledFor with
     | none => true
     | some t => decide (t ≤ now + 500))

/-- One run of the dispatch effect body (page.tsx:182-227): if the busy flag
is clear and an eligible pending task exists, mark the first one `sending`,
stamp `startedAt`, set the busy flag and schedule its completion timeout.
Returns `none` when the body changes nothing (busy, or no eligible task). -/
def effectBody (now startAt : Nat) (shouldFail : Bool) (s : EngineState) :
    Option EngineState :=
  if s.processing then none
  else
    match s.deliveries.find? (eligibleEntry now) with
    | none => none
    | some nxt =>
      some
        { deliveries := s.deliveries.map (fun e =>
            if e.id = nxt.id then
              { e with status := DeliveryStatus.sending, startedAt := some startAt }
            else e)
          processing := true
          timer := some (nxt.id, shouldFail) }

/-- The effect cleanup (page.tsx:223-226): `clearTimeout` and
`processingRef.current = false`.  React runs it before every re-run of the
effect (the `deliveries` dependency changed) and on unmount. -/
def cleanupEffect (s : EngineState) : EngineState :=
  { s with processing := false, timer := none }

/-- The completion timeout callback (page.tsx:204-221), when it is still
armed: mark the task `delivered` or `failed` (with the fixed error message),
stamp `completedAt`, clear the busy flag. -/
def timerFire (completedAt : Nat) (s : EngineState) : EngineState :=
  match s.timer with
  | none => s
  | some (tid, shouldFail) =>
    { deliveries := s.deliveries.map (fun e =>
        if e.id = tid then
          { e with
            status := if shouldFail then DeliveryStatus.failed else DeliveryStatus.delivered
            completedAt := some completedAt
            error := if shouldFail then
                some "WhatsApp API returned a temporary error. Retry later."
              else none }
        else e)
      processing := false
      timer := none }

/-- The React effect cascade triggered by a `deliveries` change: run the
effect body; while the body marked a task (so `deliveries` changed again),
run the cleanup of that run and the body again.  The timeouts are 900-2500ms
whereas the re-render is immediate, so an armed timeout never fires inside
the cascade; `fails k` is the k-th `Math.random() < 0.08` draw.  `fuel`
bounds the recursion (one marking consumes one pending task, so
`s.deliveries.length + 1` suffices). -/
def effectCascade (now : Nat) (fails : Nat → Bool) : Nat → Nat → EngineState → EngineState
  | _, 0, s => s
  | k, fuel + 1, s =>
    match effectBody now now (fails k) s with
    | none => s
    | some s' => effectCascade now fails (k + 1) fuel (cleanupEffect s')

/-! ### Concrete fixtures -/

/-- An opted-in demo contact. -/
def danaContact : Contact :=
  { id := "c1", name := "Dana Lee", phone := "+15550100",
    tags := ["acme-company", "vip"], notes := none, optIn := true }

/-- An opted-out demo contact. -/
def optedOutContact : Contact :=
  { id := "c2", name := "Sam Roe", phone := "+15550111",
    tags := ["vip"], notes := none, optIn := false }

/-- A deterministic id supply standing in for `nanoid()`. -/
def demoGenId : Nat → String := fun n => String.mk ('i' :: (Nat.toDigits 10 n))

/-- A pending, immediately eligible delivery task. -/
def demoPending (i : String) : DeliveryLogEntry :=
  { id := i, broadcastId := "b1", contactId := i, contactName := "N",
    phone := "+1555", scheduledFor := none, status := DeliveryStatus.pending,
    preview := "hi", startedAt := none, completedAt := none, error := none }

/-- Dispatch-loop state holding two immediately eligible pending tasks. -/
def twoPendingState : EngineState :=
  { deliveries := [demoPending "d1", demoPending "d2"],
    processing := false, timer := none }

/-! ### C2: single-concurrency of the dispatch loop -/

/-- Claim C2 (code_bug evidence): with two eligible pending tasks, the React
effect cascade triggered by enqueuing them marks *both* tasks `sending`
(the cleanup that runs on every `deliveries` change resets `processingRef`
and cancels the completion timeout), ending with no armed timeout and a clear
busy flag — two tasks are simultaneously in `sending`, and neither can ever
complete, contradicting the claimed at-most-one-`sending` invariant. -/
theorem dispatch_cascade_double_sending :
    ((effectCascade 1000 (fun _ => false) 0 3 twoPendingState).deliveries.filter
        (fun e => e.status = DeliveryStatus.sending)).length = 2 ∧
    (effectCascade 1000 (fun _ => false) 0 3 twoPendingState).timer = none ∧
    (effectCascade 1000 (fun _ => false) 0 3 twoPendingState).processing = false := by
  decide

/-! ### C4: launching with audience mode "tag" and an unset tag -/

/-- The composer state of claim C4's failing input: tag mode with a null tag,
every other validation condition satisfied. -/
def tagUnsetState : ComposerState :=
  { broadcastLabel := "Launch", message := "Hi {{firstName}}",
    acknowledgedCompliance := true, audienceMode := AudienceMode.tag,
    audienceTag := none, scheduledFor := none, selectedTemplateId := none,
    contacts := [danaContact, optedOutContact] }

/-- Claim C4 (code_bug evidence): with mode `"tag"` and `audienceTag = null`,
`handleSubmit` does not reject — `filteredContacts` silently falls back to all
opted-in contacts, and the launch creates a broadcast (target `{tag: null}`)
with one task per opted-in contact. -/
theorem tag_unset_resolves_to_all_opted_in :
    filteredContacts AudienceMode.tag none tagUnsetState.contacts
      = optedInContacts tagUnsetState.contacts ∧
    (handleSubmit demoGenId 0 tagUnsetState).map
        (fun p => (p.1.totalRecipients, p.1.target, p.2.length))
      = some (1, BroadcastTarget.byTag none, 1) := by
  decide

/-! ### C6 counterexample: a contact field containing a recognized token -/

/-- A contact whose phone field itself spells a recognized placeholder. -/
def tokenPhoneContact : Contact :=
  { id := "c4", name := "Bob", phone := "{{firstName}}", tags := [],
    notes := none, optIn := true }

/-- Claim C6 counterexample: rendering `"{{phone}}"` against a contact whose
phone is the literal `"{{firstName}}"` yields `"{{firstName}}"` — a recognized
placeholder token remains in the output (the `firstName` pass runs before the
`phone` pass and is never re-applied). -/
theorem render_retains_token_from_contact_field :
    personaliseMessage "{{phone}}" tokenPhoneContact = "{{firstName}}" ∧
    hasRecognizedToken (personaliseMessage "{{phone}}" tokenPhoneContact) = true := by
  decide

/-! ### C8 counterexample: the token rules fail as stated -/

/-- A contact whose name is tab-separated. -/
def tabNameContact : Contact :=
  { id := "c5", name := "Dana\tLee", phone := "+15550122", tags := [],
    notes := none, optIn := true }

/-- A contact whose name spells a later-pass token. -/
def braceNameContact : Contact :=
  { id := "c6", name := "{{phone}}", phone := "+15550133", tags := [],
    notes := none, optIn := true }

/-- A contact whose phone is the JS replacement pattern for the matched
text. -/
def dollarPhoneContact : Contact :=
  { id := "c7", name := "Ray", phone := "$&", tags := [],
    notes := none, optIn := true }

/-- Claim C8 counterexample, refuting three parts of the claim as stated:
`{{firstName}}` is *not* the first whitespace-delimited segment — the code
splits on the single space character only, so a tab-separated name is
substituted whole; `{{fullName}}` does *not* always yield the full name — a
name spelling `{{phone}}` is rewritten to the phone by the later pass; and
`{{phone}}` does *not* always yield the phone — a phone of `$&` expands, per
JS replacement-pattern semantics, to the matched text `{{phone}}`. -/
theorem render_token_rules_counterexample :
    (personaliseMessage "{{firstName}}" tabNameContact = "Dana\tLee" ∧
      personaliseMessage "{{firstName}}" tabNameContact ≠ "Dana") ∧
    (personaliseMessage "{{fullName}}" braceNameContact = "+15550133" ∧
      personaliseMessage "{{fullName}}" braceNameContact ≠ braceNameContact.name) ∧
    (personaliseMessage "{{phone}}" dollarPhoneContact = "{{phone}}" ∧
      personaliseMessage "{{phone}}" dollarPhoneContact ≠ dollarPhoneContact.phone) := by
  decide

/-! ### C9: validation guards reject synchronously and atomically -/

/-- Claim C9: a submission whose trimmed label is empty, or whose trimmed
message is empty, or whose resolved audience is empty, is rejected: the launch
path returns nothing and the app state (and the compliance flag) is left
exactly as it was. -/
theorem launch_validation_rejects (genId : Nat → String) (isoNow : Nat)
    (st : ComposerState) (app : AppState)
    (h : jsTrim st.broadcastLabel = "" ∨ jsTrim st.message = "" ∨
      filteredContacts st.audienceMode st.audienceTag st.contacts = []) :
    handleSubmit genId isoNow st = none ∧
      submitForm genId isoNow st app = (app, st.acknowledgedCompliance) := by
  have hnone : handleSubmit genId isoNow st = none := by
    unfold handleSubmit
    rcases h with h | h | h <;> simp [h]
  exact ⟨hnone, by simp [submitForm, hnone]⟩

/-- Closed witness for `launch_validation_rejects` (empty trimmed label). -/
theorem launch_validation_rejects_witness :
    (jsTrim " " = "" ∨ jsTrim "msg" = "" ∨
      filteredContacts AudienceMode.all none [danaContact] = []) ∧
    (handleSubmit demoGenId 7
        { broadcastLabel := " ", message := "msg", acknowledgedCompliance := true,
          audienceMode := AudienceMode.all, audienceTag := none,
          scheduledFor := none, selectedTemplateId := none,
          contacts := [danaContact] } = none ∧
      submitForm demoGenId 7
        { broadcastLabel := " ", message := "msg", acknowledgedCompliance := true,
          audienceMode := AudienceMode.all, audienceTag := none,
          scheduledFor := none, selectedTemplateId := none,
          contacts := [danaContact] } { broadcasts := [], deliveries := [] }
        = ({ broadcasts := [], deliveries := [] }, true)) :=
  ⟨Or.inl (by decide),
    launch_validation_rejects demoGenId 7 _ _ (Or.inl (by decide))⟩

/-! ### C10: the compliance acknowledgement precondition -/

/-- Claim C10: if the compliance checkbox is not acknowledged, `handleSubmit`
returns without creating anything (whatever the other fields are), and after
any successful launch the checkbox is reset to unacknowledged. -/
theorem compliance_precondition_and_reset (genId : Nat → String) (isoNow : Nat)
    (st : ComposerState) (app : AppState) :
    (st.acknowledgedCompliance = false →
      handleSubmit genId isoNow st = none ∧
        submitForm genId isoNow st app = (app, false)) ∧
    ((handleSubmit genId isoNow st).isSome →
      (submitForm genId isoNow st app).2 = false) := by
  constructor
  · intro h
    have hnone : handleSubmit genId isoNow st = none := by
      unfold handleSubmit
      simp [h]
    exact ⟨hnone, by simp [submitForm, hnone, h]⟩
  · intro h
    unfold submitForm
    cases heq : handleSubmit genId isoNow st with
    | none => rw [heq] at h; simp at h
    | some p => simp

/-- Closed witness for `compliance_precondition_and_reset`: an otherwise valid
submission with the checkbox clear creates nothing; the same submission with
the checkbox set launches and resets the checkbox. -/
theorem compliance_precondition_and_reset_witness :
    (handleSubmit demoGenId 7
        { broadcastLabel := "Launch", message := "Hi", acknowledgedCompliance := false,
          audienceMode := AudienceMode.all, audienceTag := none,
          scheduledFor := none, selectedTemplateId := none,
          contacts := [danaContact] } = none ∧
      submitForm demoGenId 7
        { broadcastLabel := "Launch", message := "Hi", acknowledgedCompliance := false,
          audienceMode := AudienceMode.all, audienceTag := none,
          scheduledFor := none, selectedTemplateId := none,
          contacts := [danaContact] } { broadcasts := [], deliveries := [] }
        = ({ broadcasts := [], deliveries := [] }, false)) ∧
    (submitForm demoGenId 7
        { broadcastLabel := "Launch", message := "Hi", acknowledgedCompliance := true,
          audienceMode := AudienceMode.all, audienceTag := none,
          scheduledFor := none, selectedTemplateId := none,
          contacts := [danaContact] } { broadcasts := [], deliveries := [] }).2 = false :=
  ⟨(compliance_precondition_and_reset demoGenId 7 _ _).1 rfl,
    (compliance_precondition_and_reset demoGenId 7 _ _).2 (by decide)⟩

/-! ### C5: audience resolution, both modes -/

/-- Claim C5: in `"all"` mode the resolved audience is exactly the opted-in
contacts in original relative order; in `"tag"` mode with a set (truthy)
target tag it is exactly the opted-in contacts having a tag whose lowercase
form equals the lowercase target, again in original order. -/
theorem audience_resolution_exact (cs : List Contact) (tg : Option String)
    (t : String) (ht : t ≠ "") :
    ((filteredContacts AudienceMode.all tg cs).Sublist cs ∧
      ∀ c, c ∈ filteredContacts AudienceMode.all tg cs ↔
        c ∈ cs ∧ c.optIn = true) ∧
    ((filteredContacts AudienceMode.tag (some t) cs).Sublist cs ∧
      ∀ c, c ∈ filteredContacts AudienceMode.tag (some t) cs ↔
        c ∈ cs ∧ c.optIn = true ∧ ∃ x ∈ c.tags, jsToLower x = jsToLower t) := by
  refine ⟨⟨?_, ?_⟩, ⟨?_, ?_⟩⟩
  · cases tg <;> exact List.filter_sublist cs
  · intro c
    cases tg <;> simp [filteredContacts, optedInContacts, List.mem_filter]
  · simp only [filteredContacts, if_neg ht]
    exact (List.filter_sublist _).trans (List.filter_sublist cs)
  · intro c
    simp only [filteredContacts, if_neg ht, optedInContacts, List.mem_filter,
      List.any_eq_true, decide_eq_true_eq, and_assoc]

/-- Closed witness for `audience_resolution_exact`. -/
theorem audience_resolution_exact_witness :
    ("vip" ≠ "" : Prop) ∧
    (((filteredContacts AudienceMode.all none [danaContact, optedOutContact]).Sublist
        [danaContact, optedOutContact] ∧
      ∀ c, c ∈ filteredContacts AudienceMode.all none [danaContact, optedOutContact] ↔
        c ∈ [danaContact, optedOutContact] ∧ c.optIn = true) ∧
    ((filteredContacts AudienceMode.tag (some "vip") [danaContact, optedOutContact]).Sublist
        [danaContact, optedOutContact] ∧
      ∀ c, c ∈ filteredContacts AudienceMode.tag (some "vip") [danaContact, optedOutContact] ↔
        c ∈ [danaContact, optedOutContact] ∧ c.optIn = true ∧
          ∃ x ∈ c.tags, jsToLower x = jsToLower "vip")) :=
  ⟨by decide, audience_resolution_exact [danaContact, optedOutContact] none "vip" (by decide)⟩

/-! ### C1: what a successful launch creates -/

/-- The deliveries built on launch are in one-to-one order-preserving
correspondence with the resolved audience, each `pending` and snapshotting
the contact's phone, name and rendered preview. -/
theorem mkDeliveries_forall2 (genId : Nat → String) (bId msg : String)
    (sched : Option Nat) :
    ∀ (i : Nat) (cs : List Contact),
      List.Forall₂ (fun (d : DeliveryLogEntry) (c : Contact) =>
        d.status = DeliveryStatus.pending ∧ d.broadcastId = bId ∧
        d.contactId = c.id ∧ d.contactName = c.name ∧ d.phone = c.phone ∧
        d.preview = personaliseMessage msg c ∧ d.scheduledFor = sched)
        (mkDeliveries genId bId msg sched i cs) cs := by
  intro i cs
  induction cs generalizing i with
  | nil => exact List.Forall₂.nil
  | cons c cs ih =>
    exact List.Forall₂.cons ⟨rfl, rfl, rfl, rfl, rfl, rfl, rfl⟩ (ih (i + 1))

/-- Claim C1 (amended: the compliance acknowledgement is a further
precondition): a submission with non-empty trimmed label, non-empty trimmed
message, acknowledged compliance and a non-empty resolved audience launches
exactly one broadcast with one `pending` task per resolved recipient, in
resolved order, snapshotting phone/name/preview; `totalRecipients` is the
audience size, `delivered = failed = 0`, and the initial status is
`scheduled` when `scheduledFor` is set, else `in_progress`. -/
theorem launch_builds_queue (genId : Nat → String) (isoNow : Nat)
    (st : ComposerState)
    (h1 : jsTrim st.broadcastLabel ≠ "") (h2 : jsTrim st.message ≠ "")
    (h3 : st.acknowledgedCompliance = true)
    (h4 : filteredContacts st.audienceMode st.audienceTag st.contacts ≠ []) :
    ∃ b ds, handleSubmit genId isoNow st = some (b, ds) ∧
      ds.length = (filteredContacts st.audienceMode st.audienceTag st.contacts).length ∧
      b.totalRecipients = ds.length ∧ b.delivered = 0 ∧ b.failed = 0 ∧
      (st.scheduledFor ≠ none → b.status = BroadcastStatus.scheduled) ∧
      (st.scheduledFor = none → b.status = BroadcastStatus.in_progress) ∧
      List.Forall₂ (fun (d : DeliveryLogEntry) (c : Contact) =>
        d.status = DeliveryStatus.pending ∧ d.broadcastId = b.id ∧
        d.contactId = c.id ∧ d.contactName = c.name ∧ d.phone = c.phone ∧
        d.preview = personaliseMessage st.message c ∧ d.scheduledFor = st.scheduledFor)
        ds (filteredContacts st.audienceMode st.audienceTag st.contacts) ∧
      ∀ app : AppState,
        (handleLaunchBroadcast b ds app).broadcasts.length = app.broadcasts.length + 1 ∧
        (handleLaunchBroadcast b ds app).deliveries.length
          = app.deliveries.length + ds.length := by
  have hf2 := mkDeliveries_forall2 genId (genId 0) st.message st.scheduledFor 0
    (filteredContacts st.audienceMode st.audienceTag st.contacts)
  have hlen : (mkDeliveries genId (genId 0) st.message st.scheduledFor 0
      (filteredContacts st.audienceMode st.audienceTag st.contacts)).length
      = (filteredContacts st.audienceMode st.audienceTag st.contacts).length :=
    List.Forall₂.length_eq hf2
  have hemp : (filteredContacts st.audienceMode st.audienceTag st.contacts).isEmpty
      = false := by
    cases hfc : filteredContacts st.audienceMode st.audienceTag st.contacts with
    | nil => exact absurd hfc h4
    | cons a l => rfl
  have heq : handleSubmit genId isoNow st = some
      ({ id := genId 0
         label := jsTrim st.broadcastLabel
         templateId := st.selectedTemplateId.getD "custom"
         target :=
           match st.audienceMode with
           | AudienceMode.tag => BroadcastTarget.byTag st.audienceTag
           | AudienceMode.all => BroadcastTarget.byContactIds
               ((filteredContacts st.audienceMode st.audienceTag st.contacts).map
                 (fun c => c.id))
         scheduledFor := st.scheduledFor
         createdAt := isoNow
         status :=
           match st.scheduledFor with
           | some _ => BroadcastStatus.scheduled
           | none => BroadcastStatus.in_progress
         totalRecipients := (filteredContacts st.audienceMode st.audienceTag st.contacts).length
         delivered := 0
         failed := 0 },
       mkDeliveries genId (genId 0) st.message st.scheduledFor 0
         (filteredContacts st.audienceMode st.audienceTag st.contacts)) := by
    unfold handleSubmit
    rw [if_neg h1, if_neg h2, if_neg (by simp [h3])]
    simp only [hemp, Bool.false_eq_true, if_false]
  refine ⟨_, _, heq, hlen, hlen.symm, rfl, rfl, ?_, ?_, hf2, ?_⟩
  · intro hs
    cases hsf : st.scheduledFor with
    | none => exact absurd hsf hs
    | some v => simp [hsf]
  · intro hs
    simp [hs]
  · intro app
    simp [handleLaunchBroadcast]

/-- Claim C1 counterexample: a submission meeting all three conditions the
claim names (non-empty trimmed label, non-empty trimmed message, audience of
size 1) creates nothing when the compliance checkbox is not acknowledged, so
the claim as stated is false without the extra precondition. -/
theorem launch_without_compliance_creates_nothing :
    jsTrim "Launch" ≠ "" ∧ jsTrim "Hi" ≠ "" ∧
    (filteredContacts AudienceMode.all none [danaContact]).length = 1 ∧
    handleSubmit demoGenId 7
      { broadcastLabel := "Launch", message := "Hi", acknowledgedCompliance := false,
        audienceMode := AudienceMode.all, audienceTag := none,
        scheduledFor := none, selectedTemplateId := none,
        contacts := [danaContact] } = none := by
  decide

/-- Closed witness for `launch_builds_queue` (audience of size one, no
schedule). -/
theorem launch_builds_queue_witness :
    (jsTrim "Launch" ≠ "" ∧ jsTrim "Hi {{firstName}}" ≠ "" ∧
      (true : Bool) = true ∧
      filteredContacts AudienceMode.all none [danaContact, optedOutContact] ≠ []) ∧
    (∃ b ds, handleSubmit demoGenId 7
        { broadcastLabel := "Launch", message := "Hi {{firstName}}",
          acknowledgedCompliance := true, audienceMode := AudienceMode.all,
          audienceTag := none, scheduledFor := none, selectedTemplateId := none,
          contacts := [danaContact, optedOutContact] } = some (b, ds) ∧
      ds.length = (filteredContacts AudienceMode.all none
        [danaContact, optedOutContact]).length ∧
      b.totalRecipients = ds.length ∧ b.delivered = 0 ∧ b.failed = 0 ∧
      ((none : Option Nat) ≠ none → b.status = BroadcastStatus.scheduled) ∧
      ((none : Option Nat) = none → b.status = BroadcastStatus.in_progress) ∧
      List.Forall₂ (fun (d : DeliveryLogEntry) (c : Contact) =>
        d.status = DeliveryStatus.pending ∧ d.broadcastId = b.id ∧
        d.contactId = c.id ∧ d.contactName = c.name ∧ d.phone = c.phone ∧
        d.preview = personaliseMessage "Hi {{firstName}}" c ∧
        d.scheduledFor = (none : Option Nat))
        ds (filteredContacts AudienceMode.all none [danaContact, optedOutContact]) ∧
      ∀ app : AppState,
        (handleLaunchBroadcast b ds app).broadcasts.length = app.broadcasts.length + 1 ∧
        (handleLaunchBroadcast b ds app).deliveries.length
          = app.deliveries.length + ds.length) :=
  ⟨⟨by decide, by decide, rfl, by decide⟩,
    launch_builds_queue demoGenId 7 _ (by decide) (by decide) rfl (by decide)⟩

/-! ### C3 and C7: the status aggregator -/

/-- When a broadcast has related entries, reconciliation always yields the
record with the freshly computed counts and status (the no-write guard only
skips the update when the values are already equal). -/
theorem reconcileBroadcast_eq (ds : List DeliveryLogEntry) (b : Broadcast)
    (hne : ds.filter (fun e => e.broadcastId = b.id) ≠ []) :
    reconcileBroadcast ds b =
      { b with
        delivered := deliveredCount (ds.filter (fun e => e.broadcastId = b.id))
        failed := failedCount (ds.filter (fun e => e.broadcastId = b.id))
        status := reconStatus b (ds.filter (fun e => e.broadcastId = b.id)) } := by
  have hemp : (ds.filter (fun e => e.broadcastId = b.id)).isEmpty = false := by
    cases hfc : ds.filter (fun e => e.broadcastId = b.id) with
    | nil => exact absurd hfc hne
    | cons a l => rfl
  unfold reconcileBroadcast
  simp only [hemp, Bool.false_eq_true, if_false]
  split
  · rename_i h
    obtain ⟨hs, hd, hf⟩ := h
    rw [hs, hd, hf]
  · rfl

/-- Modelled from the spec: the aggregation rule exactly as claim C3 words it
(all-failed-and-none-delivered, any in flight, `delivered + failed >=
totalRecipients`, non-null `scheduledFor`, otherwise unchanged), with the
counts written into the broadcast. -/
def specAggregate (b : Broadcast) (tasks : List DeliveryLogEntry) : Broadcast :=
  { b with
    delivered := deliveredCount tasks
    failed := failedCount tasks
    status :=
      if (∀ e ∈ tasks, e.status = DeliveryStatus.failed) ∧
          ¬ ∃ e ∈ tasks, e.status = DeliveryStatus.delivered then
        BroadcastStatus.failed
      else if ∃ e ∈ tasks, e.status = DeliveryStatus.pending ∨
          e.status = DeliveryStatus.sending then BroadcastStatus.in_progress
      else if b.totalRecipients ≤ deliveredCount tasks + failedCount tasks then
        BroadcastStatus.completed
      else if b.scheduledFor ≠ none then BroadcastStatus.scheduled
      else b.status }

/-- The status computation of the effect equals the spec's precedence when
`totalRecipients` agrees with the task count. -/
theorem reconStatus_eq_spec (b : Broadcast) (tasks : List DeliveryLogEntry)
    (htot : b.totalRecipients = tasks.length) :
    reconStatus b tasks =
      (if (∀ e ∈ tasks, e.status = DeliveryStatus.failed) ∧
          ¬ ∃ e ∈ tasks, e.status = DeliveryStatus.delivered then
        BroadcastStatus.failed
      else if ∃ e ∈ tasks,
          e.status = DeliveryStatus.pending ∨ e.status = DeliveryStatus.sending then
        BroadcastStatus.in_progress
      else if b.totalRecipients ≤ deliveredCount tasks + failedCount tasks then
        BroadcastStatus.completed
      else if b.scheduledFor ≠ none then BroadcastStatus.scheduled
      else b.status) := by
  unfold reconStatus
  refine if_congr ?_ rfl (if_congr ?_ rfl (if_congr ?_ rfl (if_congr ?_ rfl rfl)))
  · unfold failedCount deliveredCount
    rw [List.filter_length_eq_length]
    simp [List.length_eq_zero, List.filter_eq_nil_iff]
  · unfold anyInFlight
    simp [List.any_eq_true]
  · rw [htot]
  · exact Option.isSome_iff_ne_none

/-- Claim C3: on a broadcast with at least one related task and with
`totalRecipients` equal to its task count (as every launched broadcast has),
the reconciliation effect computes exactly the precedence the spec states,
and writes the delivered/failed counts. -/
theorem aggregator_matches_spec_precedence (ds : List DeliveryLogEntry)
    (b : Broadcast)
    (hne : ds.filter (fun e => e.broadcastId = b.id) ≠ [])
    (htot : b.totalRecipients = (ds.filter (fun e => e.broadcastId = b.id)).length) :
    reconcileBroadcast ds b = specAggregate b (ds.filter (fun e => e.broadcastId = b.id)) := by
  rw [reconcileBroadcast_eq ds b hne]
  unfold specAggregate
  rw [reconStatus_eq_spec b _ htot]

/-- The delivered and failed counts never exceed the number of tasks. -/
theorem counts_le_length (tasks : List DeliveryLogEntry) :
    deliveredCount tasks + failedCount tasks ≤ tasks.length := by
  induction tasks with
  | nil => simp [deliveredCount, failedCount]
  | cons e T ih =>
    unfold deliveredCount failedCount at ih ⊢
    cases hs : e.status <;>
      simp [List.filter_cons, hs, List.length_cons] <;> omega

/-- With no pending or sending task, every task is terminal, so the two
counts partition the task list. -/
theorem no_inflight_sum (tasks : List DeliveryLogEntry)
    (h : anyInFlight tasks = false) :
    deliveredCount tasks + failedCount tasks = tasks.length := by
  induction tasks with
  | nil => simp [deliveredCount, failedCount]
  | cons e T ih =>
    rw [anyInFlight, List.any_cons, Bool.or_eq_false_iff] at h
    obtain ⟨he, hT⟩ := h
    have ihT := ih hT
    rw [Bool.or_eq_false_iff] at he
    obtain ⟨he1, he2⟩ := he
    have hp : e.status ≠ DeliveryStatus.pending := of_decide_eq_false he1
    have hsnd : e.status ≠ DeliveryStatus.sending := of_decide_eq_false he2
    unfold deliveredCount failedCount at ihT ⊢
    cases hs : e.status
    · exact absurd hs hp
    · exact absurd hs hsnd
    · simp only [List.filter_cons, hs]
      simp
      omega
    · simp only [List.filter_cons, hs]
      simp
      omega

/-- Claim C7: after aggregating a broadcast with at least one related task
and `totalRecipients` equal to its task count, the derived counts satisfy
`delivered + failed ≤ totalRecipients`; a `completed` status means every
related task is terminal; a `failed` status means `delivered = 0` and
`failed = totalRecipients`. -/
theorem aggregator_invariants (ds : List DeliveryLogEntry) (b : Broadcast)
    (hne : ds.filter (fun e => e.broadcastId = b.id) ≠ [])
    (htot : b.totalRecipients = (ds.filter (fun e => e.broadcastId = b.id)).length) :
    (reconcileBroadcast ds b).delivered + (reconcileBroadcast ds b).failed
      ≤ (reconcileBroadcast ds b).totalRecipients ∧
    ((reconcileBroadcast ds b).status = BroadcastStatus.completed →
      ∀ e ∈ ds.filter (fun e => e.broadcastId = b.id),
        e.status = DeliveryStatus.delivered ∨ e.status = DeliveryStatus.failed) ∧
    ((reconcileBroadcast ds b).status = BroadcastStatus.failed →
      (reconcileBroadcast ds b).delivered = 0 ∧
      (reconcileBroadcast ds b).failed = (reconcileBroadcast ds b).totalRecipients) := by
  rw [reconcileBroadcast_eq ds b hne]
  have hterm : ∀ e, anyInFlight (ds.filter (fun x => x.broadcastId = b.id)) = false →
      e ∈ ds.filter (fun x => x.broadcastId = b.id) →
      e.status = DeliveryStatus.delivered ∨ e.status = DeliveryStatus.failed := by
    intro e h2f he
    have hnot := List.any_eq_false.mp h2f e he
    rw [Bool.not_eq_true, Bool.or_eq_false_iff] at hnot
    cases hst : e.status
    · exact absurd hst (of_decide_eq_false hnot.1)
    · exact absurd hst (of_decide_eq_false hnot.2)
    · exact Or.inl rfl
    · exact Or.inr rfl
  refine ⟨?_, ?_, ?_⟩
  · show deliveredCount _ + failedCount _ ≤ b.totalRecipients
    rw [htot]
    exact counts_le_length _
  · show reconStatus b _ = BroadcastStatus.completed → _
    intro hS e he
    unfold reconStatus at hS
    by_cases h1 : failedCount (ds.filter (fun x => x.broadcastId = b.id)) =
        (ds.filter (fun x => x.broadcastId = b.id)).length ∧
        deliveredCount (ds.filter (fun x => x.broadcastId = b.id)) = 0
    · rw [if_pos h1] at hS
      cases hS
    · rw [if_neg h1] at hS
      by_cases h2 : anyInFlight (ds.filter (fun x => x.broadcastId = b.id)) = true
      · rw [if_pos h2] at hS
        cases hS
      · have h2f : anyInFlight (ds.filter (fun x => x.broadcastId = b.id)) = false := by
          revert h2
          cases anyInFlight (ds.filter (fun x => x.broadcastId = b.id)) <;> simp
        exact hterm e h2f he
  · show reconStatus b _ = BroadcastStatus.failed →
      deliveredCount _ = 0 ∧ failedCount _ = b.totalRecipients
    intro hS
    unfold reconStatus at hS
    by_cases h1 : failedCount (ds.filter (fun x => x.broadcastId = b.id)) =
        (ds.filter (fun x => x.broadcastId = b.id)).length ∧
        deliveredCount (ds.filter (fun x => x.broadcastId = b.id)) = 0
    · exact ⟨h1.2, htot ▸ h1.1⟩
    · exfalso
      rw [if_neg h1] at hS
      by_cases h2 : anyInFlight (ds.filter (fun x => x.broadcastId = b.id)) = true
      · rw [if_pos h2] at hS
        cases hS
      · have h2f : anyInFlight (ds.filter (fun x => x.broadcastId = b.id)) = false := by
          revert h2
          cases anyInFlight (ds.filter (fun x => x.broadcastId = b.id)) <;> simp
        rw [if_neg h2] at hS
        rw [if_pos (le_of_eq (no_inflight_sum _ h2f).symm)] at hS
        cases hS

/-- A demo broadcast with two recipients. -/
def demoBroadcast : Broadcast :=
  { id := "b1", label := "Launch", templateId := "custom",
    target := BroadcastTarget.byContactIds ["c1", "c2"], scheduledFor := none,
    createdAt := 0, status := BroadcastStatus.in_progress,
    totalRecipients := 2, delivered := 0, failed := 0 }

/-- Two terminal tasks of `demoBroadcast`: one delivered, one failed. -/
def demoTerminalTasks : List DeliveryLogEntry :=
  [{ demoPending "d1" with status := DeliveryStatus.delivered },
   { demoPending "d2" with status := DeliveryStatus.failed }]

/-- Closed witness for `aggregator_matches_spec_precedence`. -/
theorem aggregator_matches_spec_precedence_witness :
    (demoTerminalTasks.filter (fun e => e.broadcastId = demoBroadcast.id) ≠ [] ∧
      demoBroadcast.totalRecipients =
        (demoTerminalTasks.filter (fun e => e.broadcastId = demoBroadcast.id)).length) ∧
    reconcileBroadcast demoTerminalTasks demoBroadcast =
      specAggregate demoBroadcast
        (demoTerminalTasks.filter (fun e => e.broadcastId = demoBroadcast.id)) :=
  ⟨⟨by decide, by decide⟩,
    aggregator_matches_spec_precedence demoTerminalTasks demoBroadcast
      (by decide) (by decide)⟩

/-- Closed witness for `aggregator_invariants`. -/
theorem aggregator_invariants_witness :
    (demoTerminalTasks.filter (fun e => e.broadcastId = demoBroadcast.id) ≠ [] ∧
      demoBroadcast.totalRecipients =
        (demoTerminalTasks.filter (fun e => e.broadcastId = demoBroadcast.id)).length) ∧
    ((reconcileBroadcast demoTerminalTasks demoBroadcast).delivered +
        (reconcileBroadcast demoTerminalTasks demoBroadcast).failed
      ≤ (reconcileBroadcast demoTerminalTasks demoBroadcast).totalRecipients ∧
    ((reconcileBroadcast demoTerminalTasks demoBroadcast).status = BroadcastStatus.completed →
      ∀ e ∈ demoTerminalTasks.filter (fun e => e.broadcastId = demoBroadcast.id),
        e.status = DeliveryStatus.delivered ∨ e.status = DeliveryStatus.failed) ∧
    ((reconcileBroadcast demoTerminalTasks demoBroadcast).status = BroadcastStatus.failed →
      (reconcileBroadcast demoTerminalTasks demoBroadcast).delivered = 0 ∧
      (reconcileBroadcast demoTerminalTasks demoBroadcast).failed =
        (reconcileBroadcast demoTerminalTasks demoBroadcast).totalRecipients)) :=
  ⟨⟨by decide, by decide⟩,
    aggregator_invariants demoTerminalTasks demoBroadcast (by decide) (by decide)⟩

/-! ### C6 and C8: properties of the personalization engine -/

/-- Structure eta for strings. -/
theorem mk_toList (s : String) : String.mk s.toList = s := rfl

/-- A token pattern can only match at an opening brace. -/
theorem matchToken_ne_lbrace (tok : List Char) (c : Char) (cs : List Char)
    (hc : c ≠ '{') : matchToken tok (c :: cs) = none := by
  unfold matchToken
  split
  · rename_i rest heq
    injection heq with h1 h2
    exact absurd h1 hc
  · rfl

/-- The scanner leaves a string without opening braces unchanged, whatever
prefix has been consumed. -/
theorem replaceTokAux_no_lbrace (tok repl : List Char) (fuel : Nat) (s : List Char)
    (h : ∀ c ∈ s, c ≠ '{') :
    ∀ pre : List Char, replaceTokAux tok repl fuel pre s = s := by
  induction fuel generalizing s with
  | zero => intro pre; rfl
  | succ n ih =>
    intro pre
    cases s with
    | nil => rfl
    | cons c cs =>
      have hmt := matchToken_ne_lbrace tok c cs (h c (List.mem_cons_self c cs))
      simp only [replaceTokAux, hmt]
      rw [ih cs (fun x hx => h x (List.mem_cons_of_mem c hx)) (pre ++ [c])]

/-- `true` iff `s` contains no opening brace, so no token pattern can match
anywhere in it. -/
def noLBrace (s : String) : Bool :=
  s.toList.all (fun ch => ch ≠ '{')

/-- A replacement pass is the identity on strings without opening braces. -/
theorem replaceTokStr_no_lbrace (tok repl s : String) (h : noLBrace s = true) :
    replaceTokStr tok repl s = s := by
  unfold replaceTokStr replaceTok
  rw [replaceTokAux_no_lbrace tok.toList repl.toList _ s.toList
    (fun c hc => of_decide_eq_true (List.all_eq_true.mp h c hc)) []]
  exact mk_toList s

/-- Dollar-substitution is the identity on replacement strings containing no
dollar character. -/
theorem expandRepl_no_dollar (repl m b a : List Char)
    (h : ∀ c ∈ repl, c ≠ '$') : expandRepl repl m b a = repl := by
  induction repl with
  | nil => rfl
  | cons c r ih =>
    cases r with
    | nil => rfl
    | cons d r2 =>
      have hc : c ≠ '$' := h c (List.mem_cons_self c (d :: r2))
      have step : expandRepl (c :: d :: r2) m b a
          = if c = '$' then
              (if d = '$' then '$' :: expandRepl r2 m b a
               else if d = '&' then m ++ expandRepl r2 m b a
               else if d = Char.ofNat 96 then b ++ expandRepl r2 m b a
               else if d = Char.ofNat 39 then a ++ expandRepl r2 m b a
               else '$' :: d :: expandRepl r2 m b a)
            else c :: expandRepl (d :: r2) m b a := rfl
      rw [step, if_neg hc]
      rw [ih (fun x hx => h x (List.mem_cons_of_mem c hx))]

/-- `true` iff `s` contains neither an opening brace (so later replacement
passes leave it unchanged) nor a dollar character (so `GetSubstitution`
inserts it literally). -/
def valueSafe (s : String) : Bool :=
  s.toList.all (fun ch => decide (ch ≠ '{') && decide (ch ≠ '$'))

/-- A value-safe string has no opening brace. -/
theorem valueSafe_no_lbrace (s : String) (h : valueSafe s = true) :
    noLBrace s = true := by
  unfold valueSafe at h
  unfold noLBrace
  rw [List.all_eq_true] at h ⊢
  intro c hc
  have hcc := h c hc
  rw [Bool.and_eq_true] at hcc
  exact hcc.1

/-- A value-safe string has no dollar character. -/
theorem valueSafe_no_dollar (s : String) (h : valueSafe s = true) :
    ∀ c ∈ s.toList, c ≠ '$' := by
  unfold valueSafe at h
  rw [List.all_eq_true] at h
  intro c hc
  have hcc := h c hc
  rw [Bool.and_eq_true] at hcc
  exact of_decide_eq_true hcc.2

/-- Claim C6 (amended): render is deterministic — identical inputs give
identical output — and a template without brace characters is returned
verbatim; the no-remaining-recognized-tokens guarantee of the original claim
is dropped (see the counterexample: token text inside a contact field
survives into the output). -/
theorem render_deterministic_and_brace_free_inert :
    (∀ t1 t2 : String, ∀ c1 c2 : Contact, t1 = t2 → c1 = c2 →
      personaliseMessage t1 c1 = personaliseMessage t2 c2) ∧
    (∀ (t : String) (c : Contact), noLBrace t = true →
      personaliseMessage t c = t) := by
  constructor
  · intro t1 t2 c1 c2 ht hc
    rw [ht, hc]
  · intro t c h
    unfold personaliseMessage
    rw [replaceTokStr_no_lbrace _ _ _ h, replaceTokStr_no_lbrace _ _ _ h,
      replaceTokStr_no_lbrace _ _ _ h, replaceTokStr_no_lbrace _ _ _ h,
      replaceTokStr_no_lbrace _ _ _ h, replaceTokStr_no_lbrace _ _ _ h]

/-- Closed witness for `render_deterministic_and_brace_free_inert`. -/
theorem render_deterministic_and_brace_free_inert_witness :
    personaliseMessage "Hi there" danaContact = personaliseMessage "Hi there" danaContact ∧
    (noLBrace "Hello Dana" = true ∧
      personaliseMessage "Hello Dana" danaContact = "Hello Dana") :=
  ⟨render_deterministic_and_brace_free_inert.1 "Hi there" "Hi there"
      danaContact danaContact rfl rfl,
    by decide,
    render_deterministic_and_brace_free_inert.2 "Hello Dana" danaContact (by decide)⟩

/-- Claim C8 (amended): `{{firstName}}` is the first *space*-delimited
segment of the trimmed name (split on the single space character, not on
arbitrary whitespace), falling back to the full name if splitting yields
nothing; and for contacts whose substituted values contain no opening brace
and no dollar character — brace text can be rewritten by the later fixed
passes, and a dollar triggers the JS replacement-pattern expansion, as the
counterexample shows — each single-token template renders to exactly the
specified value: `firstNameValue`, the full name, the company rule (first tag
containing "company", else first tag, else "your team"), the notes or empty,
the first tag or empty, and the phone.  The spec's scenario renders
`"Hi Dana from acme-company"`. -/
theorem render_token_semantics (c : Contact)
    (hfn : valueSafe (firstNameValue c) = true)
    (hname : valueSafe c.name = true)
    (hcomp : valueSafe (companyValue c) = true)
    (hnotes : valueSafe (c.notes.getD "") = true)
    (htag : valueSafe (c.tags.headD "") = true)
    (hphone : valueSafe c.phone = true) :
    personaliseMessage "{{firstName}}" c = firstNameValue c ∧
    personaliseMessage "{{fullName}}" c = c.name ∧
    personaliseMessage "{{company}}" c = companyValue c ∧
    personaliseMessage "{{notes}}" c = c.notes.getD "" ∧
    personaliseMessage "{{tag}}" c = c.tags.headD "" ∧
    personaliseMessage "{{phone}}" c = c.phone ∧
    personaliseMessage "Hi {{firstName}} from {{company}}" danaContact
      = "Hi Dana from acme-company" := by
  have hmatch : ∀ tok v tpl : String, ∀ matched : List Char,
      replaceTok tok.toList v.toList tpl.toList
        = expandRepl v.toList matched [] [] ++ [] →
      (∀ ch ∈ v.toList, ch ≠ '$') →
      replaceTokStr tok v tpl = v := by
    intro tok v tpl matched h hv
    unfold replaceTokStr
    rw [h, List.append_nil, expandRepl_no_dollar v.toList matched [] [] hv]
    exact mk_toList v
  refine ⟨?_, ?_, ?_, ?_, ?_, ?_, by decide⟩
  · show replaceTokStr "phone" c.phone (replaceTokStr "tag" (c.tags.headD "")
      (replaceTokStr "notes" (c.notes.getD "") (replaceTokStr "company" (companyValue c)
      (replaceTokStr "fullName" c.name
        (replaceTokStr "firstName" (firstNameValue c) "{{firstName}}"))))) = firstNameValue c
    rw [hmatch "firstName" (firstNameValue c) "{{firstName}}" "{{firstName}}".toList rfl
      (valueSafe_no_dollar _ hfn)]
    rw [replaceTokStr_no_lbrace _ _ _ (valueSafe_no_lbrace _ hfn), replaceTokStr_no_lbrace _ _ _ (valueSafe_no_lbrace _ hfn),
      replaceTokStr_no_lbrace _ _ _ (valueSafe_no_lbrace _ hfn), replaceTokStr_no_lbrace _ _ _ (valueSafe_no_lbrace _ hfn),
      replaceTokStr_no_lbrace _ _ _ (valueSafe_no_lbrace _ hfn)]
  · show replaceTokStr "phone" c.phone (replaceTokStr "tag" (c.tags.headD "")
      (replaceTokStr "notes" (c.notes.getD "") (replaceTokStr "company" (companyValue c)
      (replaceTokStr "fullName" c.name
        (replaceTokStr "firstName" (firstNameValue c) "{{fullName}}"))))) = c.name
    rw [show replaceTokStr "firstName" (firstNameValue c) "{{fullName}}"
      = "{{fullName}}" from rfl]
    rw [hmatch "fullName" c.name "{{fullName}}" "{{fullName}}".toList rfl
      (valueSafe_no_dollar _ hname)]
    rw [replaceTokStr_no_lbrace _ _ _ (valueSafe_no_lbrace _ hname), replaceTokStr_no_lbrace _ _ _ (valueSafe_no_lbrace _ hname),
      replaceTokStr_no_lbrace _ _ _ (valueSafe_no_lbrace _ hname), replaceTokStr_no_lbrace _ _ _ (valueSafe_no_lbrace _ hname)]
  · show replaceTokStr "phone" c.phone (replaceTokStr "tag" (c.tags.headD "")
      (replaceTokStr "notes" (c.notes.getD "") (replaceTokStr "company" (companyValue c)
      (replaceTokStr "fullName" c.name
        (replaceTokStr "firstName" (firstNameValue c) "{{company}}"))))) = companyValue c
    rw [show replaceTokStr "firstName" (firstNameValue c) "{{company}}"
      = "{{company}}" from rfl]
    rw [show replaceTokStr "fullName" c.name "{{company}}" = "{{company}}" from rfl]
    rw [hmatch "company" (companyValue c) "{{company}}" "{{company}}".toList rfl
      (valueSafe_no_dollar _ hcomp)]
    rw [replaceTokStr_no_lbrace _ _ _ (valueSafe_no_lbrace _ hcomp), replaceTokStr_no_lbrace _ _ _ (valueSafe_no_lbrace _ hcomp),
      replaceTokStr_no_lbrace _ _ _ (valueSafe_no_lbrace _ hcomp)]
  · show replaceTokStr "phone" c.phone (replaceTokStr "tag" (c.tags.headD "")
      (replaceTokStr "notes" (c.notes.getD "") (replaceTokStr "company" (companyValue c)
      (replaceTokStr "fullName" c.name
        (replaceTokStr "firstName" (firstNameValue c) "{{notes}}"))))) = c.notes.getD ""
    rw [show replaceTokStr "firstName" (firstNameValue c) "{{notes}}"
      = "{{notes}}" from rfl]
    rw [show replaceTokStr "fullName" c.name "{{notes}}" = "{{notes}}" from rfl]
    rw [show replaceTokStr "company" (companyValue c) "{{notes}}" = "{{notes}}" from rfl]
    rw [hmatch "notes" (c.notes.getD "") "{{notes}}" "{{notes}}".toList rfl
      (valueSafe_no_dollar _ hnotes)]
    rw [replaceTokStr_no_lbrace _ _ _ (valueSafe_no_lbrace _ hnotes), replaceTokStr_no_lbrace _ _ _ (valueSafe_no_lbrace _ hnotes)]
  · show replaceTokStr "phone" c.phone (replaceTokStr "tag" (c.tags.headD "")
      (replaceTokStr "notes" (c.notes.getD "") (replaceTokStr "company" (companyValue c)
      (replaceTokStr "fullName" c.name
        (replaceTokStr "firstName" (firstNameValue c) "{{tag}}"))))) = c.tags.headD ""
    rw [show replaceTokStr "firstName" (firstNameValue c) "{{tag}}" = "{{tag}}" from rfl]
    rw [show replaceTokStr "fullName" c.name "{{tag}}" = "{{tag}}" from rfl]
    rw [show replaceTokStr "company" (companyValue c) "{{tag}}" = "{{tag}}" from rfl]
    rw [show replaceTokStr "notes" (c.notes.getD "") "{{tag}}" = "{{tag}}" from rfl]
    rw [hmatch "tag" (c.tags.headD "") "{{tag}}" "{{tag}}".toList rfl
      (valueSafe_no_dollar _ htag)]
    rw [replaceTokStr_no_lbrace _ _ _ (valueSafe_no_lbrace _ htag)]
  · show replaceTokStr "phone" c.phone (replaceTokStr "tag" (c.tags.headD "")
      (replaceTokStr "notes" (c.notes.getD "") (replaceTokStr "company" (companyValue c)
      (replaceTokStr "fullName" c.name
        (replaceTokStr "firstName" (firstNameValue c) "{{phone}}"))))) = c.phone
    rw [show replaceTokStr "firstName" (firstNameValue c) "{{phone}}"
      = "{{phone}}" from rfl]
    rw [show replaceTokStr "fullName" c.name "{{phone}}" = "{{phone}}" from rfl]
    rw [show replaceTokStr "company" (companyValue c) "{{phone}}" = "{{phone}}" from rfl]
    rw [show replaceTokStr "notes" (c.notes.getD "") "{{phone}}" = "{{phone}}" from rfl]
    rw [show replaceTokStr "tag" (c.tags.headD "") "{{phone}}" = "{{phone}}" from rfl]
    exact hmatch "phone" c.phone "{{phone}}" "{{phone}}".toList rfl
      (valueSafe_no_dollar _ hphone)

/-- Closed witness for `render_token_semantics`. -/
theorem render_token_semantics_witness :
    (valueSafe (firstNameValue danaContact) = true ∧
      valueSafe danaContact.name = true ∧
      valueSafe (companyValue danaContact) = true ∧
      valueSafe (danaContact.notes.getD "") = true ∧
      valueSafe (danaContact.tags.headD "") = true ∧
      valueSafe danaContact.phone = true) ∧
    (personaliseMessage "{{firstName}}" danaContact = firstNameValue danaContact ∧
    personaliseMessage "{{fullName}}" danaContact = danaContact.name ∧
    personaliseMessage "{{company}}" danaContact = companyValue danaContact ∧
    personaliseMessage "{{notes}}" danaContact = danaContact.notes.getD "" ∧
    personaliseMessage "{{tag}}" danaContact = danaContact.tags.headD "" ∧
    personaliseMessage "{{phone}}" danaContact = danaContact.phone ∧
    personaliseMessage "Hi {{firstName}} from {{company}}" danaContact
      = "Hi Dana from acme-company") :=
  ⟨⟨by decide, by decide, by decide, by decide, by decide, by decide⟩,
    render_token_semantics danaContact (by decide) (by decide) (by decide)
      (by decide) (by decide) (by decide)⟩
